import Mathlib

/-!
Verification of the state-machine wrapper in the cpuprofiler crate
(`src/profiler.rs`, `src/heap_profiler.rs`).

The two handles (`Profiler`, `HeapProfiler`) each hold one `ProfilerState`
tag and guard calls into a native profiling library.  We embed the Rust
code shallowly:

* a byte string (`Vec<u8>` / the argument of `CString::new`) is a
  `List Nat` of byte values;
* the filesystem and the native CPU-start status code are oracles packed
  in an `Env` record, since they are external to the crate;
* each operation returns a `StepResult`: the outcome (`Ok`, a typed
  error, or a panic from an `unwrap`), the handle after the call, and the
  list of native primitives invoked during the call;
* `CString::new` fails exactly when the bytes contain a nul byte, and
  `CString::into_string` fails exactly when the bytes are not valid
  UTF-8; `utf8Valid` below is the standard UTF-8 well-formedness check
  that `into_string` performs.
-/

/-- Modelled from the spec: `state.rs` is declared by `lib.rs` but absent
from src/.  Section 3 of the spec defines ProfilerState as the two-valued
lifecycle tag {NotActive, Active}. -/
inductive ProfilerState
  | NotActive
  | Active
deriving DecidableEq, Repr

/-- Modelled from the spec: `error.rs` is declared by `lib.rs` but absent
from src/.  Section 4.1 of the spec gives the closed error taxonomy; the
variant names InvalidState and InternalError appear literally in
`profiler.rs` / `heap_profiler.rs`, the others follow the spec wording
(NulByteInContent for a failed `CString::new`, NonUtf8Content for a
failed conversion to text, IoFailure for a failed `File::create`). -/
inductive ErrorKind
  | NulByteInContent
  | NonUtf8Content
  | IoFailure
  | InvalidState (s : ProfilerState)
  | InternalError
deriving DecidableEq, Repr

/-- Outcome of one public operation: `Ok(())`, `Err(e)`, or a panic
(the source calls `.unwrap()` on the result of `CString::into_string`). -/
inductive Outcome
  | ok
  | err (e : ErrorKind)
  | panicked
deriving DecidableEq, Repr

/-- The native primitives declared in the two `extern` blocks of
`profiler.rs` and `heap_profiler.rs`. -/
inductive NativeCall
  | profilerStart (fname : List Nat)
  | profilerStop
  | heapProfilerStart (fname : List Nat)
  | heapProfilerStop
  | heapProfilerDump (reason : List Nat)
deriving DecidableEq, Repr

/-- External world: whether `File::create` succeeds at a given path, and
the i32 status code the native `ProfilerStart` returns for a given path.
Both are outside the crate, so they are oracles of the embedding. -/
structure Env where
  fsCreateOk : List Nat → Bool
  cpuStartStatus : List Nat → Int

/-- Result of one public operation on a handle of type `H`. -/
structure StepResult (H : Type) where
  outcome : Outcome
  handle : H
  calls : List NativeCall
deriving DecidableEq, Repr

/-- `CString::new(bytes)` fails exactly when the bytes contain a nul. -/
def hasNul (bs : List Nat) : Bool :=
  bs.any (fun b => b == 0)

/-- Continuation byte of a UTF-8 sequence (0x80 to 0xBF). -/
def isCont (b : Nat) : Bool :=
  decide (0x80 ≤ b) && decide (b ≤ 0xBF)

/-- Standard UTF-8 well-formedness of a byte sequence, as checked by
`CString::into_string` (via `str::from_utf8`): ASCII, two-byte leads
0xC2 to 0xDF, three-byte leads 0xE0 to 0xEF with the usual restricted
second byte for 0xE0 and 0xED, four-byte leads 0xF0 to 0xF4 with the
restricted second byte for 0xF0 and 0xF4. -/
def utf8Valid : List Nat → Bool
  | [] => true
  | b :: rest =>
    if b ≤ 0x7F then
      utf8Valid rest
    else if decide (0xC2 ≤ b) && decide (b ≤ 0xDF) then
      match rest with
      | b1 :: rest2 => isCont b1 && utf8Valid rest2
      | [] => false
    else if b == 0xE0 then
      match rest with
      | b1 :: b2 :: rest2 =>
          (decide (0xA0 ≤ b1) && decide (b1 ≤ 0xBF)) && isCont b2 && utf8Valid rest2
      | _ => false
    else if (decide (0xE1 ≤ b) && decide (b ≤ 0xEC)) || b == 0xEE || b == 0xEF then
      match rest with
      | b1 :: b2 :: rest2 => isCont b1 && isCont b2 && utf8Valid rest2
      | _ => false
    else if b == 0xED then
      match rest with
      | b1 :: b2 :: rest2 =>
          (decide (0x80 ≤ b1) && decide (b1 ≤ 0x9F)) && isCont b2 && utf8Valid rest2
      | _ => false
    else if b == 0xF0 then
      match rest with
      | b1 :: b2 :: b3 :: rest2 =>
          (decide (0x90 ≤ b1) && decide (b1 ≤ 0xBF)) && isCont b2 && isCont b3 &&
            utf8Valid rest2
      | _ => false
    else if decide (0xF1 ≤ b) && decide (b ≤ 0xF3) then
      match rest with
      | b1 :: b2 :: b3 :: rest2 => isCont b1 && isCont b2 && isCont b3 && utf8Valid rest2
      | _ => false
    else if b == 0xF4 then
      match rest with
      | b1 :: b2 :: b3 :: rest2 =>
          (decide (0x80 ≤ b1) && decide (b1 ≤ 0x8F)) && isCont b2 && isCont b3 &&
            utf8Valid rest2
      | _ => false
    else false

/-- Embedding of `check_file_path` (`heap_profiler.rs` lines 132 to 139;
`util.rs`, which `profiler.rs` imports it from, is absent from src/ and
the spec section 4.5 describes the same body): `File::create(path)`,
with `Ok(_)` mapped to success and any error mapped into the error
union, which the spec names `IoFailure`. -/
def check_file_path (env : Env) (path : List Nat) : Except ErrorKind Unit :=
  if env.fsCreateOk path then Except.ok () else Except.error ErrorKind.IoFailure

/-- The CPU profiler handle of `profiler.rs`: one `ProfilerState` field. -/
structure Profiler where
  state : ProfilerState
deriving DecidableEq, Repr

/-- The heap profiler handle of `heap_profiler.rs`: one `ProfilerState`
field. -/
structure HeapProfiler where
  state : ProfilerState
deriving DecidableEq, Repr

/-- The process-wide instance `PROFILER` (`profiler.rs` lines 42 to 51):
constructed with `state: ProfilerState::NotActive`. -/
def PROFILER : Profiler := ⟨ProfilerState.NotActive⟩

/-- The process-wide instance `HEAP_PROFILER` (`heap_profiler.rs` lines
27 to 36): constructed with `state: ProfilerState::NotActive`. -/
def HEAP_PROFILER : HeapProfiler := ⟨ProfilerState.NotActive⟩

/-- Embedding of `Profiler::state` (`pub fn state(&self)`): returns the
tag; `&self` cannot mutate, so the handle is returned unchanged. -/
def Profiler.stateOp (p : Profiler) : ProfilerState × Profiler :=
  (p.state, p)

/-- Embedding of `HeapProfiler::state`: returns the tag, handle
unchanged. -/
def HeapProfiler.stateOp (hp : HeapProfiler) : ProfilerState × HeapProfiler :=
  (hp.state, hp)

/-- Embedding of `Profiler::start` (`profiler.rs` lines 100 to 117).
Order of the source: state guard, `CString::new` (nul check),
`into_string().unwrap()` (UTF-8 check, panics on failure),
`check_file_path`, then the native `ProfilerStart` whose status code 0
maps to `InternalError` and nonzero to `Ok` with the state set to
`Active`. -/
def Profiler.start (env : Env) (p : Profiler) (fname : List Nat) : StepResult Profiler :=
  if p.state = ProfilerState.NotActive then
    if hasNul fname then
      ⟨Outcome.err ErrorKind.NulByteInContent, p, []⟩
    else if utf8Valid fname = false then
      ⟨Outcome.panicked, p, []⟩
    else
      match check_file_path env fname with
      | Except.error e => ⟨Outcome.err e, p, []⟩
      | Except.ok _ =>
        if env.cpuStartStatus fname = 0 then
          ⟨Outcome.err ErrorKind.InternalError, p, [NativeCall.profilerStart fname]⟩
        else
          ⟨Outcome.ok, ⟨ProfilerState.Active⟩, [NativeCall.profilerStart fname]⟩
  else
    ⟨Outcome.err (ErrorKind.InvalidState p.state), p, []⟩

/-- Embedding of `Profiler::stop` (`profiler.rs` lines 127 to 137):
guard on `Active`, native `ProfilerStop` (no status), state to
`NotActive`. -/
def Profiler.stop (p : Profiler) : StepResult Profiler :=
  if p.state = ProfilerState.Active then
    ⟨Outcome.ok, ⟨ProfilerState.NotActive⟩, [NativeCall.profilerStop]⟩
  else
    ⟨Outcome.err (ErrorKind.InvalidState p.state), p, []⟩

/-- Embedding of `HeapProfiler::start` (`heap_profiler.rs` lines 88 to
100).  Same shape as the CPU start except that the native
`HeapProfilerStart` returns no status: after the call the state is set
to `Active` and `Ok(())` is returned unconditionally. -/
def HeapProfiler.start (env : Env) (hp : HeapProfiler) (fname : List Nat) :
    StepResult HeapProfiler :=
  if hp.state = ProfilerState.NotActive then
    if hasNul fname then
      ⟨Outcome.err ErrorKind.NulByteInContent, hp, []⟩
    else if utf8Valid fname = false then
      ⟨Outcome.panicked, hp, []⟩
    else
      match check_file_path env fname with
      | Except.error e => ⟨Outcome.err e, hp, []⟩
      | Except.ok _ =>
        ⟨Outcome.ok, ⟨ProfilerState.Active⟩, [NativeCall.heapProfilerStart fname]⟩
  else
    ⟨Outcome.err (ErrorKind.InvalidState hp.state), hp, []⟩

/-- Embedding of `HeapProfiler::stop` (`heap_profiler.rs` lines 110 to
120): guard on `Active`, native `HeapProfilerStop`, state to
`NotActive`. -/
def HeapProfiler.stop (hp : HeapProfiler) : StepResult HeapProfiler :=
  if hp.state = ProfilerState.Active then
    ⟨Outcome.ok, ⟨ProfilerState.NotActive⟩, [NativeCall.heapProfilerStop]⟩
  else
    ⟨Outcome.err (ErrorKind.InvalidState hp.state), hp, []⟩

/-- Embedding of `HeapProfiler::dump` (`heap_profiler.rs` lines 122 to
129): no state guard at all; `CString::new`, `into_string().unwrap()`,
`check_file_path`, native `HeapProfilerDump`; `self.state` is never
assigned. -/
def HeapProfiler.dump (env : Env) (hp : HeapProfiler) (reason : List Nat) :
    StepResult HeapProfiler :=
  if hasNul reason then
    ⟨Outcome.err ErrorKind.NulByteInContent, hp, []⟩
  else if utf8Valid reason = false then
    ⟨Outcome.panicked, hp, []⟩
  else
    match check_file_path env reason with
    | Except.error e => ⟨Outcome.err e, hp, []⟩
    | Except.ok _ => ⟨Outcome.ok, hp, [NativeCall.heapProfilerDump reason]⟩

/-- Environment in which every path is writable and the native CPU start
reports success. -/
def envOk : Env := ⟨fun _ => true, fun _ => 1⟩

/-- Environment in which every path is writable but the native CPU start
reports failure (status 0). -/
def envStatusZero : Env := ⟨fun _ => true, fun _ => 0⟩

/-- Environment in which no path is writable. -/
def envNoWrite : Env := ⟨fun _ => false, fun _ => 1⟩

/-- Claim C1: for the CPU profiler start from NotActive, when the nul
check, the UTF-8 conversion and the writability check succeed, the
native status code decides the outcome: status 0 yields the internal
failure error with the state still NotActive, nonzero yields Ok with the
state transitioned to Active; the native start primitive is invoked in
both cases. -/
theorem cpu_start_decided_by_native_status (env : Env) (fname : List Nat)
    (h1 : hasNul fname = false) (h2 : utf8Valid fname = true)
    (h3 : env.fsCreateOk fname = true) :
    (env.cpuStartStatus fname = 0 →
      Profiler.start env ⟨ProfilerState.NotActive⟩ fname =
        ⟨Outcome.err ErrorKind.InternalError, ⟨ProfilerState.NotActive⟩,
          [NativeCall.profilerStart fname]⟩) ∧
    (env.cpuStartStatus fname ≠ 0 →
      Profiler.start env ⟨ProfilerState.NotActive⟩ fname =
        ⟨Outcome.ok, ⟨ProfilerState.Active⟩, [NativeCall.profilerStart fname]⟩) := by
  constructor
  · intro h0
    simp [Profiler.start, check_file_path, h1, h2, h3, h0]
  · intro h0
    simp [Profiler.start, check_file_path, h1, h2, h3, h0]

/-- Witness for claim C1 at the path "a" (byte 97), once in an
environment whose native start reports status 0 and once in one that
reports status 1. -/
theorem cpu_start_decided_by_native_status_witness :
    Profiler.start envStatusZero ⟨ProfilerState.NotActive⟩ [97] =
      ⟨Outcome.err ErrorKind.InternalError, ⟨ProfilerState.NotActive⟩,
        [NativeCall.profilerStart [97]]⟩ ∧
    Profiler.start envOk ⟨ProfilerState.NotActive⟩ [97] =
      ⟨Outcome.ok, ⟨ProfilerState.Active⟩, [NativeCall.profilerStart [97]]⟩ :=
  ⟨(cpu_start_decided_by_native_status envStatusZero [97] (by decide) (by decide)
      (by decide)).1 (by decide),
   (cpu_start_decided_by_native_status envOk [97] (by decide) (by decide)
      (by decide)).2 (by decide)⟩

/-- Claim C2: for both handles in state Active, start with any path
fails with InvalidState(Active), leaves the state Active, and invokes no
native primitive. -/
theorem start_while_active_invalid_state (env : Env) (fname : List Nat) :
    Profiler.start env ⟨ProfilerState.Active⟩ fname =
      ⟨Outcome.err (ErrorKind.InvalidState ProfilerState.Active),
        ⟨ProfilerState.Active⟩, []⟩ ∧
    HeapProfiler.start env ⟨ProfilerState.Active⟩ fname =
      ⟨Outcome.err (ErrorKind.InvalidState ProfilerState.Active),
        ⟨ProfilerState.Active⟩, []⟩ := by
  constructor <;> simp [Profiler.start, HeapProfiler.start]

/-- Claim C3: for both handles in state NotActive, stop fails with
InvalidState(NotActive), leaves the state NotActive, and invokes no
native primitive. -/
theorem stop_while_notactive_invalid_state :
    Profiler.stop ⟨ProfilerState.NotActive⟩ =
      ⟨Outcome.err (ErrorKind.InvalidState ProfilerState.NotActive),
        ⟨ProfilerState.NotActive⟩, []⟩ ∧
    HeapProfiler.stop ⟨ProfilerState.NotActive⟩ =
      ⟨Outcome.err (ErrorKind.InvalidState ProfilerState.NotActive),
        ⟨ProfilerState.NotActive⟩, []⟩ := by
  decide

/-- Claim C4: for both handles in state NotActive and any path bytes
containing a nul byte, start fails with NulByteInContent, leaves the
state NotActive, and invokes no native primitive. -/
theorem start_nul_byte_rejected (env : Env) (fname : List Nat)
    (h : hasNul fname = true) :
    Profiler.start env ⟨ProfilerState.NotActive⟩ fname =
      ⟨Outcome.err ErrorKind.NulByteInContent, ⟨ProfilerState.NotActive⟩, []⟩ ∧
    HeapProfiler.start env ⟨ProfilerState.NotActive⟩ fname =
      ⟨Outcome.err ErrorKind.NulByteInContent, ⟨ProfilerState.NotActive⟩, []⟩ := by
  constructor <;> simp [Profiler.start, HeapProfiler.start, h]

/-- Witness for claim C4 at the bytes of "f\x00b". -/
theorem start_nul_byte_rejected_witness :
    Profiler.start envOk ⟨ProfilerState.NotActive⟩ [102, 0, 98] =
      ⟨Outcome.err ErrorKind.NulByteInContent, ⟨ProfilerState.NotActive⟩, []⟩ ∧
    HeapProfiler.start envOk ⟨ProfilerState.NotActive⟩ [102, 0, 98] =
      ⟨Outcome.err ErrorKind.NulByteInContent, ⟨ProfilerState.NotActive⟩, []⟩ :=
  start_nul_byte_rejected envOk [102, 0, 98] (by decide)

/-- Claim C5: for both handles in state NotActive and a nul-free valid
UTF-8 path whose creation fails, start fails with IoFailure, leaves the
state NotActive, and invokes no native primitive; and the path check
succeeds exactly when creating the file succeeds. -/
theorem start_io_failure (env : Env) (fname : List Nat)
    (h1 : hasNul fname = false) (h2 : utf8Valid fname = true)
    (h3 : env.fsCreateOk fname = false) :
    Profiler.start env ⟨ProfilerState.NotActive⟩ fname =
      ⟨Outcome.err ErrorKind.IoFailure, ⟨ProfilerState.NotActive⟩, []⟩ ∧
    HeapProfiler.start env ⟨ProfilerState.NotActive⟩ fname =
      ⟨Outcome.err ErrorKind.IoFailure, ⟨ProfilerState.NotActive⟩, []⟩ ∧
    (∀ (e2 : Env) (p2 : List Nat),
      check_file_path e2 p2 = Except.ok () ↔ e2.fsCreateOk p2 = true) := by
  refine ⟨?_, ?_, ?_⟩
  · simp [Profiler.start, check_file_path, h1, h2, h3]
  · simp [HeapProfiler.start, check_file_path, h1, h2, h3]
  · intro e2 p2
    cases hfs : e2.fsCreateOk p2 <;> simp [check_file_path, hfs]

/-- Witness for claim C5 at the path "a" in the environment in which no
path is writable. -/
theorem start_io_failure_witness :
    Profiler.start envNoWrite ⟨ProfilerState.NotActive⟩ [97] =
      ⟨Outcome.err ErrorKind.IoFailure, ⟨ProfilerState.NotActive⟩, []⟩ ∧
    HeapProfiler.start envNoWrite ⟨ProfilerState.NotActive⟩ [97] =
      ⟨Outcome.err ErrorKind.IoFailure, ⟨ProfilerState.NotActive⟩, []⟩ ∧
    (∀ (e2 : Env) (p2 : List Nat),
      check_file_path e2 p2 = Except.ok () ↔ e2.fsCreateOk p2 = true) :=
  start_io_failure envNoWrite [97] (by decide) (by decide) (by decide)

/-- Claim C6 (refuting the no-panic part): at the nul-free byte string
[0xFF], which is not valid UTF-8, the CPU start, the heap start and the
heap dump all panic (the source unwraps the failed `into_string`)
instead of returning a member of the closed error union. -/
theorem non_utf8_input_panics :
    (Profiler.start envOk ⟨ProfilerState.NotActive⟩ [255]).outcome = Outcome.panicked ∧
    (HeapProfiler.start envOk ⟨ProfilerState.NotActive⟩ [255]).outcome = Outcome.panicked ∧
    (HeapProfiler.dump envOk ⟨ProfilerState.NotActive⟩ [255]).outcome = Outcome.panicked := by
  decide

/-- Claim C7: the heap dump is not gated on the state: it never changes
the handle, and for a nul-free valid UTF-8 reason at a writable path it
succeeds from either state. -/
theorem heap_dump_state_independent (env : Env) (hp : HeapProfiler) (reason : List Nat) :
    (HeapProfiler.dump env hp reason).handle = hp ∧
    (hasNul reason = false → utf8Valid reason = true → env.fsCreateOk reason = true →
      HeapProfiler.dump env hp reason =
        ⟨Outcome.ok, hp, [NativeCall.heapProfilerDump reason]⟩) := by
  constructor
  · cases hn : hasNul reason <;> cases hu : utf8Valid reason <;>
      cases hf : env.fsCreateOk reason <;>
      simp [HeapProfiler.dump, check_file_path, hn, hu, hf]
  · intro h1 h2 h3
    simp [HeapProfiler.dump, check_file_path, h1, h2, h3]

/-- Witness for claim C7 at the reason "a" from the Active state. -/
theorem heap_dump_state_independent_witness :
    (HeapProfiler.dump envOk ⟨ProfilerState.Active⟩ [97]).handle =
      (⟨ProfilerState.Active⟩ : HeapProfiler) ∧
    HeapProfiler.dump envOk ⟨ProfilerState.Active⟩ [97] =
      ⟨Outcome.ok, ⟨ProfilerState.Active⟩, [NativeCall.heapProfilerDump [97]]⟩ :=
  ⟨(heap_dump_state_independent envOk ⟨ProfilerState.Active⟩ [97]).1,
   (heap_dump_state_independent envOk ⟨ProfilerState.Active⟩ [97]).2
     (by decide) (by decide) (by decide)⟩

/-- Claim C8: both process-wide instances are constructed in state
NotActive, and the state operation is a pure read on every handle: it
returns the tag and leaves the handle unchanged. -/
theorem state_after_construction :
    PROFILER.stateOp = (ProfilerState.NotActive, PROFILER) ∧
    HEAP_PROFILER.stateOp = (ProfilerState.NotActive, HEAP_PROFILER) ∧
    (∀ p : Profiler, p.stateOp = (p.state, p)) ∧
    (∀ hp : HeapProfiler, hp.stateOp = (hp.state, hp)) :=
  ⟨rfl, rfl, fun _ => rfl, fun _ => rfl⟩

/-- Claim C9: starting from the freshly constructed instances, two
sequential start-then-stop cycles with the same writable path both
succeed for both handles (the native CPU status being nonzero), and
after each cycle the state is NotActive again. -/
theorem two_start_stop_cycles (env : Env) (fname : List Nat)
    (h1 : hasNul fname = false) (h2 : utf8Valid fname = true)
    (h3 : env.fsCreateOk fname = true) (h4 : env.cpuStartStatus fname ≠ 0) :
    ((Profiler.start env PROFILER fname).outcome = Outcome.ok ∧
     (Profiler.stop (Profiler.start env PROFILER fname).handle).outcome = Outcome.ok ∧
     (Profiler.stop (Profiler.start env PROFILER fname).handle).handle.state =
       ProfilerState.NotActive ∧
     (Profiler.start env
        (Profiler.stop (Profiler.start env PROFILER fname).handle).handle
        fname).outcome = Outcome.ok ∧
     (Profiler.stop (Profiler.start env
        (Profiler.stop (Profiler.start env PROFILER fname).handle).handle
        fname).handle).outcome = Outcome.ok ∧
     (Profiler.stop (Profiler.start env
        (Profiler.stop (Profiler.start env PROFILER fname).handle).handle
        fname).handle).handle.state = ProfilerState.NotActive) ∧
    ((HeapProfiler.start env HEAP_PROFILER fname).outcome = Outcome.ok ∧
     (HeapProfiler.stop (HeapProfiler.start env HEAP_PROFILER fname).handle).outcome =
       Outcome.ok ∧
     (HeapProfiler.stop (HeapProfiler.start env HEAP_PROFILER fname).handle).handle.state =
       ProfilerState.NotActive ∧
     (HeapProfiler.start env
        (HeapProfiler.stop (HeapProfiler.start env HEAP_PROFILER fname).handle).handle
        fname).outcome = Outcome.ok ∧
     (HeapProfiler.stop (HeapProfiler.start env
        (HeapProfiler.stop (HeapProfiler.start env HEAP_PROFILER fname).handle).handle
        fname).handle).outcome = Outcome.ok ∧
     (HeapProfiler.stop (HeapProfiler.start env
        (HeapProfiler.stop (HeapProfiler.start env HEAP_PROFILER fname).handle).handle
        fname).handle).handle.state = ProfilerState.NotActive) := by
  have hs : Profiler.start env ⟨ProfilerState.NotActive⟩ fname =
      ⟨Outcome.ok, ⟨ProfilerState.Active⟩, [NativeCall.profilerStart fname]⟩ := by
    simp [Profiler.start, check_file_path, h1, h2, h3, h4]
  have hh : HeapProfiler.start env ⟨ProfilerState.NotActive⟩ fname =
      ⟨Outcome.ok, ⟨ProfilerState.Active⟩, [NativeCall.heapProfilerStart fname]⟩ := by
    simp [HeapProfiler.start, check_file_path, h1, h2, h3]
  have hstop : Profiler.stop ⟨ProfilerState.Active⟩ =
      ⟨Outcome.ok, ⟨ProfilerState.NotActive⟩, [NativeCall.profilerStop]⟩ := by decide
  have hhstop : HeapProfiler.stop ⟨ProfilerState.Active⟩ =
      ⟨Outcome.ok, ⟨ProfilerState.NotActive⟩, [NativeCall.heapProfilerStop]⟩ := by decide
  refine ⟨⟨?_, ?_, ?_, ?_, ?_, ?_⟩, ?_, ?_, ?_, ?_, ?_, ?_⟩ <;>
    simp [PROFILER, HEAP_PROFILER, hs, hh, hstop, hhstop]

/-- Witness for claim C9 at the path "a" in the all-success
environment. -/
theorem two_start_stop_cycles_witness :
    ((Profiler.start envOk PROFILER [97]).outcome = Outcome.ok ∧
     (Profiler.stop (Profiler.start envOk PROFILER [97]).handle).outcome = Outcome.ok ∧
     (Profiler.stop (Profiler.start envOk PROFILER [97]).handle).handle.state =
       ProfilerState.NotActive ∧
     (Profiler.start envOk
        (Profiler.stop (Profiler.start envOk PROFILER [97]).handle).handle
        [97]).outcome = Outcome.ok ∧
     (Profiler.stop (Profiler.start envOk
        (Profiler.stop (Profiler.start envOk PROFILER [97]).handle).handle
        [97]).handle).outcome = Outcome.ok ∧
     (Profiler.stop (Profiler.start envOk
        (Profiler.stop (Profiler.start envOk PROFILER [97]).handle).handle
        [97]).handle).handle.state = ProfilerState.NotActive) ∧
    ((HeapProfiler.start envOk HEAP_PROFILER [97]).outcome = Outcome.ok ∧
     (HeapProfiler.stop (HeapProfiler.start envOk HEAP_PROFILER [97]).handle).outcome =
       Outcome.ok ∧
     (HeapProfiler.stop (HeapProfiler.start envOk HEAP_PROFILER [97]).handle).handle.state =
       ProfilerState.NotActive ∧
     (HeapProfiler.start envOk
        (HeapProfiler.stop (HeapProfiler.start envOk HEAP_PROFILER [97]).handle).handle
        [97]).outcome = Outcome.ok ∧
     (HeapProfiler.stop (HeapProfiler.start envOk
        (HeapProfiler.stop (HeapProfiler.start envOk HEAP_PROFILER [97]).handle).handle
        [97]).handle).outcome = Outcome.ok ∧
     (HeapProfiler.stop (HeapProfiler.start envOk
        (HeapProfiler.stop (HeapProfiler.start envOk HEAP_PROFILER [97]).handle).handle
        [97]).handle).handle.state = ProfilerState.NotActive) :=
  two_start_stop_cycles envOk [97] (by decide) (by decide) (by decide) (by decide)

/-- Claim C10: the heap start can never return InternalError from any
state, environment or input (the native heap start primitive returns no
status code), and from NotActive with a nul-free valid UTF-8 path that
passes the writability check it returns Ok and moves the state to
Active. -/
theorem heap_start_never_internal_failure (env : Env) (hp : HeapProfiler)
    (fname : List Nat) :
    (HeapProfiler.start env hp fname).outcome ≠ Outcome.err ErrorKind.InternalError ∧
    (hp.state = ProfilerState.NotActive → hasNul fname = false →
      utf8Valid fname = true → env.fsCreateOk fname = true →
      HeapProfiler.start env hp fname =
        ⟨Outcome.ok, ⟨ProfilerState.Active⟩, [NativeCall.heapProfilerStart fname]⟩) := by
  constructor
  · rcases hp with ⟨s⟩
    cases s <;> cases hn : hasNul fname <;> cases hu : utf8Valid fname <;>
      cases hf : env.fsCreateOk fname <;>
      simp [HeapProfiler.start, check_file_path, hn, hu, hf]
  · intro hst h1 h2 h3
    simp [HeapProfiler.start, check_file_path, hst, h1, h2, h3]

/-- Witness for claim C10 at the path "a" from NotActive in the
all-success environment. -/
theorem heap_start_never_internal_failure_witness :
    (HeapProfiler.start envOk ⟨ProfilerState.NotActive⟩ [97]).outcome ≠
      Outcome.err ErrorKind.InternalError ∧
    HeapProfiler.start envOk ⟨ProfilerState.NotActive⟩ [97] =
      ⟨Outcome.ok, ⟨ProfilerState.Active⟩, [NativeCall.heapProfilerStart [97]]⟩ :=
  ⟨(heap_start_never_internal_failure envOk ⟨ProfilerState.NotActive⟩ [97]).1,
   (heap_start_never_internal_failure envOk ⟨ProfilerState.NotActive⟩ [97]).2
     rfl (by decide) (by decide) (by decide)⟩
